import Mathlib

/-!
Verification of the WebSS capture-orchestration engine against its
natural-language specification.

The Python sources are shallowly embedded: pure decision logic
(resource policy, delay calculation, navigation scheduling, retry loops,
throttling) becomes executable Lean functions; effectful browser calls
become explicit outcome parameters (an environment describing, for each
I/O step, whether it returned, raised an Exception, or was cancelled —
mirroring Python where an except-Exception clause catches raised
exceptions but not task cancellation, while a finally clause runs in
both cases).
-/

namespace Webss

/-- Outcome of one awaited Python operation that did not return normally:
either a raised Exception carrying str(e), or task cancellation
(a BaseException, not caught by except-Exception clauses). -/
inductive Exn where
  | exn (msg : String)
  | cancel
deriving DecidableEq, Repr

instance {ε α : Type} [DecidableEq ε] [DecidableEq α] : DecidableEq (Except ε α) := fun a b =>
  match a, b with
  | .error e, .error e' => if h : e = e' then .isTrue (by rw [h]) else .isFalse (by simp [h])
  | .ok v, .ok v' => if h : v = v' then .isTrue (by rw [h]) else .isFalse (by simp [h])
  | .error _, .ok _ => .isFalse (by simp)
  | .ok _, .error _ => .isFalse (by simp)

/-- Python substring membership: pat in s. -/
def strContains (s pat : String) : Bool :=
  s.toList.tails.any fun t => pat.toList.isPrefixOf t

/-- Python str.endswith. -/
def strEndsWith (s suffix : String) : Bool :=
  suffix.toList.isSuffixOf s.toList

/-- Playwright resource types, as classified for route interception
(resource_handler.py consults image, media, font, stylesheet, other). -/
inductive ResourceType where
  | document | stylesheet | image | media | font | script
  | texttrack | xhr | fetch | eventsource | websocket | manifest | other
deriving DecidableEq, Repr

/-- Verdict of the route interceptor: route.continue_() or route.abort(). -/
inductive Verdict where
  | allow
  | block
deriving DecidableEq, Repr

/-- resource_handler.py: ResourceHandler.blocked_domains. -/
def blocked_domains : List String :=
  ["googletagmanager.com", "google-analytics.com", "googlesyndication.com",
   "doubleclick.net", "outbrain.com", "taboola.com", "amazon-adsystem.com",
   "scorecardresearch.com", "quantserve.com", "chartbeat.com", "parsely.com",
   "krxd.net", "adsystem.com", "ads.yahoo.com", "advertising.com",
   "facebook.com/tr", "connect.facebook.net", "analytics.twitter.com",
   "hotjar.com", "fullstory.com", "mouseflow.com", "crazyegg.com",
   "optimizely.com", "mixpanel.com", "segment.com", "amplitude.com"]

/-- resource_handler.py: ResourceHandler.blocked_patterns. -/
def blocked_patterns : List String :=
  ["googletagmanager", "google-analytics", "googlesyndication", "googleadservices",
   "doubleclick.net", "/gtm.js", "/analytics.js", "/ga.js",
   "facebook.com/tr", "twitter.com/i/adsct", "linkedin.com/li",
   "tiktok.com/i18n/pixel", "snapchat.com/p", "/pixel.gif",
   "outbrain.com", "taboola.com", "amazon-adsystem.com"]

/-- resource_handler.py: ResourceHandler.trusted_image_domains. -/
def trusted_image_domains : List String :=
  ["i.ytimg.com", "yt3.ggpht.com", "yt3.googleusercontent.com",
   "lh3.googleusercontent.com", "lh4.googleusercontent.com", "lh5.googleusercontent.com",
   "media.giphy.com", "i.imgur.com", "imgur.com",
   "cdn.vox-cdn.com", "duet-cdn.vox-cdn.com", "chorus-cdn.net",
   "scontent.fbcdn.net", "pbs.twimg.com", "abs.twimg.com",
   "cloudfront.net", "fastly.com", "jsdelivr.net", "unpkg.com"]

/-- resource_handler.py: ResourceHandler.always_block_types. -/
def always_block_types : List ResourceType := [.other]

/-- resource_handler.py: ResourceHandler.explicit_ad_indicators. -/
def explicit_ad_indicators : List String :=
  ["/ad/", "/ads/", "/banner/", "/popup/",
   "advertisement", "adnxs.com", "adsystem.com",
   "googlesyndication", "doubleclick"]

/-- resource_handler.py: ResourceHandler._handle_image_request.
The try block parses the request domain and the referring frame domain;
parse is none when anything inside the try raised, in which case the
except clause answers continue_() (permissive). -/
def handle_image_request (url : String) (parse : Option (String × String)) : Verdict :=
  match parse with
  | none => .allow
  | some (request_domain, page_domain) =>
    if trusted_image_domains.any fun trusted => strContains request_domain trusted then .allow
    else if request_domain == page_domain
         || strEndsWith request_domain ("." ++ page_domain) then .allow
    else if explicit_ad_indicators.any fun indicator => strContains url indicator then .block
    else .allow

/-- resource_handler.py: ResourceHandler._handle_asset_request.
parse is none when the try block raised (the except clause passes and the
request is continued). -/
def handle_asset_request (parse : Option String) : Verdict :=
  match parse with
  | none => .allow
  | some request_domain =>
    if blocked_domains.any fun blocked_domain => strContains request_domain blocked_domain then .block
    else .allow

/-- resource_handler.py: ResourceHandler.handle_request.
rawUrl is request.url (lowercased on entry as in the source);
imageParse / assetParse are the domain-parse outcomes consumed by the two
sub-handlers (none models a raised parsing error inside their try blocks). -/
def handle_request (resource_type : ResourceType) (block_images : Bool) (rawUrl : String)
    (imageParse : Option (String × String)) (assetParse : Option String) : Verdict :=
  let url := rawUrl.toLower
  if (resource_type == .image || resource_type == .media) && (block_images == false) then .allow
  else if blocked_domains.any fun domain => strContains url domain then .block
  else if blocked_patterns.any fun pattern => strContains url pattern then .block
  else if always_block_types.contains resource_type then .block
  else if resource_type == .image || resource_type == .media then handle_image_request url imageParse
  else if resource_type == .font || resource_type == .stylesheet then handle_asset_request assetParse
  else .allow

/-- content_checker.py: the delay floor applied by calculate_smart_delay
by complexity score (score measured by the injected page script; a JS
number, modelled as a rational). -/
def floorForScore (s : ℚ) : ℕ :=
  if 50 < s then 8000 else if 30 < s then 5000 else if 15 < s then 3000 else 0

/-- content_checker.py: ContentChecker.calculate_smart_delay.
evalScore is the outcome of page.evaluate on the complexity script: only
consulted when smart_wait is set; a raised Exception there is caught
(delay left at its base value) while cancellation propagates. -/
def calculate_smart_delay (delay default_delay : ℕ) (smart_wait : Bool)
    (extra_wait_time : ℕ) (evalScore : Except Exn ℚ) : Except Exn ℕ :=
  let base_delay := max delay default_delay
  match smart_wait, evalScore with
  | true, .error .cancel => .error .cancel
  | true, .error (.exn _) => .ok (min (base_delay + extra_wait_time) 30000)
  | true, .ok complexity_score =>
    let base_delay :=
      if 50 < complexity_score then max base_delay 8000
      else if 30 < complexity_score then max base_delay 5000
      else if 15 < complexity_score then max base_delay 3000
      else base_delay
    .ok (min (base_delay + extra_wait_time) 30000)
  | false, _ => .ok (min (base_delay + extra_wait_time) 30000)

/-- The delay formula exactly as the specification words it (spec 4.2a
with the claimed floor semantics): used to compare the source computation
against the spec. -/
def specDelayFormula (userDelay minimumDelay extraWaitTime : ℕ) (s : ℚ) : ℕ :=
  min (max (floorForScore s) (max userDelay minimumDelay) + extraWaitTime) 30000

/-- Python: 'youtube.com' in url or 'youtu.be' in url
(content_checker.py final_content_check site-specific branch). -/
def isYoutube (url : String) : Bool :=
  strContains url "youtube.com" || strContains url "youtu.be"

/-- content_checker.py: ContentChecker.final_content_check.
The three page.wait_for_function probes (image-loaded fraction,
lazy-loading markers, site-specific media) run inside a single try whose
except-Exception clause logs and returns; cancellation propagates. -/
def final_content_check (smart_wait : Bool) (youtube : Bool)
    (imagesCheck lazyCheck siteCheck : Except Exn Unit) : Except Exn Unit :=
  if !smart_wait then .ok ()
  else
    match imagesCheck with
    | .error .cancel => .error .cancel
    | .error (.exn _) => .ok ()
    | .ok () =>
      match lazyCheck with
      | .error .cancel => .error .cancel
      | .error (.exn _) => .ok ()
      | .ok () =>
        if youtube then
          match siteCheck with
          | .error .cancel => .error .cancel
          | _ => .ok ()
        else .ok ()

/-- Playwright wait_until conditions used by navigation.py. -/
inductive WaitUntil where
  | domcontentloaded | networkidle | load | commit
deriving DecidableEq, Repr

/-- One entry of the wait_strategies table in navigation.py
(wait_until, timeout_multiplier, extra_wait). -/
structure Strategy where
  wait_until : WaitUntil
  timeout_multiplier : ℚ
  extra_wait : ℕ
deriving DecidableEq, Repr

/-- navigation.py: the four base wait_strategies, in source order. -/
def baseStrategies : List Strategy :=
  [⟨.domcontentloaded, 1, 2000⟩,
   ⟨.networkidle, 12/10, 3000⟩,
   ⟨.load, 1, 4000⟩,
   ⟨.commit, 8/10, 5000⟩]

/-- navigation.py: the two extra, more patient strategies appended when
request.aggressive_wait is set. -/
def aggressiveStrategies : List Strategy :=
  [⟨.networkidle, 2, 8000⟩,
   ⟨.domcontentloaded, 25/10, 10000⟩]

/-- navigation.py: the wait_strategies list actually iterated. -/
def wait_strategies (aggressive_wait : Bool) : List Strategy :=
  baseStrategies ++ (if aggressive_wait then aggressiveStrategies else [])

/-- navigation.py: max_retries = 3 if request.aggressive_wait else 2. -/
def max_retries (aggressive_wait : Bool) : ℕ :=
  if aggressive_wait then 3 else 2

/-- The flat schedule of (retry round, strategy) navigation attempts:
for attempt in range(max_retries): for strategy in wait_strategies. -/
def navAttempts (aggressive_wait : Bool) : List (ℕ × Strategy) :=
  ((List.range (max_retries aggressive_wait)).map fun attempt =>
    (wait_strategies aggressive_wait).map fun strategy => (attempt, strategy)).flatten

/-- Environment outcome of one page.goto attempt (together with its
post-navigation settle wait and readiness probes): success carries the
returned response (none models Playwright returning None). -/
inductive NavOutcome where
  | success (response : Option ℕ)
  | failure
deriving DecidableEq, Repr

/-- The double loop of navigate_with_retries over the attempt schedule:
each scheduled attempt consults the environment at its flat index; the
first success returns immediately, a failure falls through to the next
scheduled attempt. -/
def runAttempts (env : ℕ → NavOutcome) : ℕ → List (ℕ × Strategy) → Option (ℕ × Option ℕ)
  | _, [] => none
  | i, _ :: rest =>
    match env i with
    | .success r => some (i, r)
    | .failure => runAttempts env (i + 1) rest

/-- navigation.py: NavigationManager.navigate_with_retries, as a function
of the per-attempt outcomes. After every round of every strategy has
failed, one final minimal-requirement fallback attempt (commit,
timeout 15000) is consulted at the next flat index; only if it also fails
is the last error re-raised (modelled as .error ()). On success the pair
(flat attempt index, response) is returned. -/
def navigate_with_retries (aggressive_wait : Bool) (env : ℕ → NavOutcome) :
    Except Unit (ℕ × Option ℕ) :=
  match runAttempts env 0 (navAttempts aggressive_wait) with
  | some res => .ok res
  | none =>
    match env (navAttempts aggressive_wait).length with
    | .success r => .ok ((navAttempts aggressive_wait).length, r)
    | .failure => .error ()

/-- navigation.py: NavigationManager._wait_for_content_readiness. The
page.wait_for_function probe runs in a try whose except-Exception clause
logs and continues; cancellation propagates. -/
def wait_for_content_readiness (probe : Except Exn Unit) : Except Exn Unit :=
  match probe with
  | .error (.exn _) => .ok ()
  | x => x

/-- navigation.py lines 72-77: the network-idle confirmation after a
navigating strategy returns; only attempted when the request asks for
network idle and the strategy was not already networkidle, and its inner
try swallows raised Exceptions. -/
def network_idle_probe (wait_for_network_idle : Bool) (strategyWaitUntil : WaitUntil)
    (probe : Except Exn Unit) : Except Exn Unit :=
  if wait_for_network_idle && !(strategyWaitUntil == .networkidle) then
    match probe with
    | .error (.exn _) => .ok ()
    | x => x
  else .ok ()

/-- models.py: ScreenshotRequest (the fields consumed by the capture
pipeline; field defaults as in the pydantic model). -/
structure ScreenshotRequest where
  url : String
  width : ℕ := 1920
  height : ℕ := 1080
  format : String := "png"
  quality : Option ℕ := none
  full_page : Bool := false
  delay : ℕ := 0
  timeout : ℕ := 30000
  selector : Option String := none
  mobile : Bool := false
  disable_animations : Bool := true
  block_ads : Bool := true
  block_images : Bool := false
  output_format : String := "base64"
  wait_for_network_idle : Bool := true
  smart_wait : Bool := true
  aggressive_wait : Bool := false
  extra_wait_time : ℕ := 0
deriving DecidableEq, Repr

/-- models.py: ScreenshotResponse. The encoded image payload is carried
abstractly (the base64 re-encoding of the returned bytes is elided, the
timestamp is wall-clock and not modelled). -/
structure ScreenshotResponse where
  success : Bool
  url : String
  size : ℕ × ℕ
  format : String
  data : Option String := none
  error : Option String := none
deriving DecidableEq, Repr

/-- Environment of one attempt of the screenshot retry loop:
queryFound is the outcome of page.query_selector (ok true = element
found, ok false = None returned); shot is the outcome of the
element/page screenshot call, carrying the bytes abstractly. -/
structure AttemptEnv where
  queryFound : Except Exn Bool
  shot : Except Exn String
deriving DecidableEq

/-- The body of one iteration of take_screenshot_with_retry: when a
selector is given, a missing element raises
HTTPException(400, detail=f-string) — inside the try block. -/
def shotAttempt (selector : Option String) (a : AttemptEnv) : Except Exn String :=
  match selector with
  | some sel =>
    match a.queryFound with
    | .error ex => .error ex
    | .ok false => .error (.exn ("Element with selector \x27" ++ sel ++ "\x27 not found"))
    | .ok true => a.shot
  | none => a.shot

/-- screenshot_service.py: ScreenshotService.take_screenshot_with_retry.
max_attempts = 3; every raised Exception (including the element-not-found
HTTPException) is caught by the except-Exception clause and, unless this
was the last attempt, retried after a backoff sleep; cancellation is not
caught. Returns the loop outcome together with the number of attempts
executed; fuel is the number of attempts remaining (entry point uses 3). -/
def take_screenshot_with_retry (selector : Option String) (env : ℕ → AttemptEnv) :
    ℕ → ℕ → Except Exn String × ℕ
  | i, 0 => (.ok "", i)
  | i, fuel + 1 =>
    match shotAttempt selector (env i) with
    | .ok bytes => (.ok bytes, i + 1)
    | .error .cancel => (.error .cancel, i + 1)
    | .error (.exn e) =>
      if fuel = 0 then (.error (.exn e), i + 1)
      else take_screenshot_with_retry selector env (i + 1) fuel

/-- screenshot_service.py: max_attempts of the screenshot retry loop. -/
def max_attempts : ℕ := 3

/-- The f-string detail of the HTTPException raised by capture_screenshot
when navigation yields no response or a status >= 400. -/
def loadFailDetail (response : Option ℕ) : String :=
  "Failed to load URL: " ++ (match response with | some status => toString status | none => "No response")

/-- The conditional wait in capture_screenshot: page.wait_for_timeout is
awaited only when the effective delay is positive. -/
def waitStep (effective_delay : ℕ) (waitOutcome : Except Exn Unit) : Except Exn Unit :=
  if 0 < effective_delay then waitOutcome else .ok ()

/-- Outcomes of the effectful steps of one capture_screenshot run, in
program order. nav abstracts the whole navigate_with_retries call
(its internals are modelled separately); shots and decode abstract the
screenshot attempts and the PIL size decode. -/
structure Env where
  createContext : Except Exn Unit
  newPage : Except Exn Unit
  setupPage : Except Exn Unit
  nav : Except Exn (Option ℕ)
  evalScore : Except Exn ℚ
  waitDelay : Except Exn Unit
  imagesCheck : Except Exn Unit
  lazyCheck : Except Exn Unit
  siteCheck : Except Exn Unit
  shots : ℕ → AttemptEnv
  decode : Except Exn (ℕ × ℕ)

/-- How the try block of capture_screenshot ended. -/
inductive TryOut where
  | success (resp : ScreenshotResponse)
  | caught (e : String)
  | cancelled
deriving DecidableEq

/-- Result of the try body of capture_screenshot, together with whether
the local variables context and page were assigned (they start as None
and the finally clause closes only assigned handles). -/
structure SessionState where
  out : TryOut
  ctxCreated : Bool
  pageCreated : Bool
deriving DecidableEq

/-- The try body of screenshot_service.py capture_screenshot: create
context, open page, set up page, navigate, status check, smart delay,
wait, final content check, screenshot with retry, decode dimensions,
build the success response. A raised Exception at any step is caught by
the except clause (recorded as .caught str(e)); cancellation escapes the
except clause (recorded as .cancelled). -/
def captureTry (request : ScreenshotRequest) (default_delay : ℕ) (env : Env) : SessionState :=
  match env.createContext with
  | .error .cancel => ⟨.cancelled, false, false⟩
  | .error (.exn e) => ⟨.caught e, false, false⟩
  | .ok () =>
    match env.newPage with
    | .error .cancel => ⟨.cancelled, true, false⟩
    | .error (.exn e) => ⟨.caught e, true, false⟩
    | .ok () =>
      match env.setupPage with
      | .error .cancel => ⟨.cancelled, true, true⟩
      | .error (.exn e) => ⟨.caught e, true, true⟩
      | .ok () =>
        match env.nav with
        | .error .cancel => ⟨.cancelled, true, true⟩
        | .error (.exn e) => ⟨.caught e, true, true⟩
        | .ok response =>
          if response.isNone || 400 ≤ response.getD 0 then
            ⟨.caught (loadFailDetail response), true, true⟩
          else
            match calculate_smart_delay request.delay default_delay request.smart_wait
                request.extra_wait_time env.evalScore with
            | .error .cancel => ⟨.cancelled, true, true⟩
            | .error (.exn e) => ⟨.caught e, true, true⟩
            | .ok effective_delay =>
              match waitStep effective_delay env.waitDelay with
              | .error .cancel => ⟨.cancelled, true, true⟩
              | .error (.exn e) => ⟨.caught e, true, true⟩
              | .ok () =>
                match final_content_check request.smart_wait (isYoutube request.url)
                    env.imagesCheck env.lazyCheck env.siteCheck with
                | .error .cancel => ⟨.cancelled, true, true⟩
                | .error (.exn e) => ⟨.caught e, true, true⟩
                | .ok () =>
                  match take_screenshot_with_retry request.selector env.shots 0 max_attempts with
                  | (.error .cancel, _) => ⟨.cancelled, true, true⟩
                  | (.error (.exn e), _) => ⟨.caught e, true, true⟩
                  | (.ok bytes, _) =>
                    match env.decode with
                    | .error .cancel => ⟨.cancelled, true, true⟩
                    | .error (.exn e) => ⟨.caught e, true, true⟩
                    | .ok (w, h) =>
                      ⟨.success
                        { success := true,
                          url := request.url,
                          size := (w, h),
                          format := request.format,
                          data := if request.output_format == "base64" then some bytes else none,
                          error := none },
                        true, true⟩

/-- Handles released by the finally clause. -/
inductive CloseEv where
  | page
  | context
deriving DecidableEq, Repr

/-- Observable result of one capture_screenshot call: the value returned
by the function (none when cancellation propagated past the except
clause) and the ordered close events emitted by the finally clause. -/
structure RunResult where
  resp : Option ScreenshotResponse
  closes : List CloseEv
deriving DecidableEq

/-- screenshot_service.py: ScreenshotService.capture_screenshot.
The except-Exception clause turns any caught exception into the failure
ScreenshotResponse (success False, size 0x0, error str(e), data absent);
the finally clause then closes page (if assigned) before context (if
assigned), on every exit path including cancellation. -/
def capture_screenshot (request : ScreenshotRequest) (default_delay : ℕ) (env : Env) : RunResult :=
  let st := captureTry request default_delay env
  let closes :=
    (if st.pageCreated then [CloseEv.page] else []) ++
    (if st.ctxCreated then [CloseEv.context] else [])
  match st.out with
  | .success resp => ⟨some resp, closes⟩
  | .caught e =>
    ⟨some { success := false, url := request.url, size := (0, 0),
            format := request.format, data := none, error := some e }, closes⟩
  | .cancelled => ⟨none, closes⟩

/-- config.py: Settings.rate_limit_requests. -/
def rate_limit_requests : ℕ := 10

/-- config.py: Settings.rate_limit_period (seconds; clock instants are
modelled as integers on an arbitrarily fine time scale). -/
def rate_limit_period : ℤ := 1

/-- config.py: Settings.max_concurrent_browsers (declared but consumed
nowhere in the sources). -/
def max_concurrent_browsers : ℕ := 5

/-- Modelled from the external asyncio_throttle dependency used at
main.py line 94: Throttler.flush pops logged timestamps from the front
of the deque while now - t > period (timestamps are appended in
monotonic order, so the deque is sorted). -/
def flush (period now : ℤ) (task_logs : List ℤ) : List ℤ :=
  task_logs.dropWhile fun t => decide (period < now - t)

/-- Modelled from the external asyncio_throttle dependency: one
Throttler.acquire evaluation at the given instant — flush, then admit
(appending now to the log) only when fewer than rate_limit timestamps
remain logged; otherwise the caller keeps waiting (not admitted at this
instant). -/
def throttleStep (rate_limit : ℕ) (period : ℤ) (task_logs : List ℤ) (now : ℤ) :
    List ℤ × Bool :=
  let l := flush period now task_logs
  if l.length < rate_limit then (l ++ [now], true) else (l, false)

/-- Drive a nondecreasing sequence of acquire instants through the
throttler; returns the final log and the list of admitted instants. -/
def throttleRun (rate_limit : ℕ) (period : ℤ) : List ℤ → List ℤ → List ℤ × List ℤ
  | task_logs, [] => (task_logs, [])
  | task_logs, t :: ts =>
    let s := throttleStep rate_limit period task_logs t
    let rest := throttleRun rate_limit period s.1 ts
    (rest.1, if s.2 then t :: rest.2 else rest.2)

/-- Instants admitted by the throttler from an empty initial log. -/
def admittedTimes (rate_limit : ℕ) (period : ℤ) (ts : List ℤ) : List ℤ :=
  (throttleRun rate_limit period [] ts).2

/-- A sliding admission window: the instants within the trailing period
ending at now. -/
def windowB (period now a : ℤ) : Bool :=
  decide (now - period ≤ a) && decide (a ≤ now)

/-- Number of capture sessions open at instant t, given the admission
instant and the optional release instant of each admitted session: a
session admitted at or before t whose resources are not yet released is
open. -/
def openSessionsAt (admits : List ℤ) (releases : List (Option ℤ)) (t : ℤ) : ℕ :=
  ((admits.zip releases).filter fun ar =>
    decide (ar.1 ≤ t) && (match ar.2 with | none => true | some r => decide (t < r))).length

/-- Ten capture requests submitted simultaneously at instant 0. -/
def tenRequestsAtZero : List ℤ := List.replicate 10 0

/-- A request with every field left at its pydantic default. -/
def reqEx : ScreenshotRequest := { url := "https://example.test/a" }

/-- An environment in which every capture step succeeds. -/
def happyEnv : Env :=
  { createContext := .ok (), newPage := .ok (), setupPage := .ok (),
    nav := .ok (some 200), evalScore := .ok 10, waitDelay := .ok (),
    imagesCheck := .ok (), lazyCheck := .ok (), siteCheck := .ok (),
    shots := fun _ => ⟨.ok true, .ok "png-bytes"⟩, decode := .ok (1920, 1080) }

/-- An environment whose navigation returns a 404 response and whose
later steps would all fail if they were ever consulted. -/
def navFailEnvA : Env :=
  { happyEnv with
    nav := .ok (some 404) }

/-- Same first four step outcomes as navFailEnvA, every later outcome
different (used to show post-navigation steps are never consulted). -/
def navFailEnvB : Env :=
  { navFailEnvA with
    evalScore := .error (.exn "js"), waitDelay := .error (.exn "w"),
    imagesCheck := .error .cancel, lazyCheck := .error .cancel,
    siteCheck := .error .cancel,
    shots := fun _ => ⟨.error (.exn "q"), .error (.exn "s")⟩,
    decode := .error (.exn "pil") }

/-- An environment in which the screenshot call itself raises. -/
def shotFailEnv : Env :=
  { happyEnv with shots := fun _ => ⟨.ok true, .error (.exn "Page.screenshot: Timeout")⟩ }

/-- A screenshot-attempt environment in which the selector never
resolves: page.query_selector returns None on every attempt. -/
def missingSelectorEnv : ℕ → AttemptEnv := fun _ => ⟨.ok false, .ok "png-bytes"⟩

/-- A navigation environment in which the first two goto attempts fail
and the third succeeds with status 200. -/
def demoNavEnv : ℕ → NavOutcome := fun i => if i = 2 then .success (some 200) else .failure

/-- The step outcome is anything but task cancellation (a raised
Exception or a normal return). -/
def noCancelE {α : Type} (e : Except Exn α) : Prop := e ≠ .error Exn.cancel

/-- No step of the capture run is cancelled: every abnormal outcome is a
raised Exception, the kind caught by the except-Exception clause. -/
def Env.noCancel (env : Env) : Prop :=
  noCancelE env.createContext ∧ noCancelE env.newPage ∧ noCancelE env.setupPage ∧
  noCancelE env.nav ∧ noCancelE env.evalScore ∧ noCancelE env.waitDelay ∧
  noCancelE env.imagesCheck ∧ noCancelE env.lazyCheck ∧ noCancelE env.siteCheck ∧
  (∀ i, i < max_attempts → noCancelE (env.shots i).queryFound ∧ noCancelE (env.shots i).shot) ∧
  noCancelE env.decode

/- ------------------------------------------------------------------ -/
/- Theorems.                                                          -/
/- ------------------------------------------------------------------ -/

/-- C6: for an intercepted sub-resource of category image or media, when
the request's block-images flag is false, handle_request answers allow —
for every URL (so in particular URLs matching the blocked-domain list or
the blocked-pattern list) and every domain-parse outcome: the rule is
evaluated first and takes precedence over every later rule. -/
theorem c6_images_preserved (rawUrl : String) (imageParse : Option (String × String))
    (assetParse : Option String) :
    handle_request .image false rawUrl imageParse assetParse = .allow ∧
    handle_request .media false rawUrl imageParse assetParse = .allow :=
  ⟨rfl, rfl⟩

/-- C7: the resource policy fails open — when the domain parsing inside
the image sub-handler or the asset sub-handler raises (parse outcome
none), the verdict is allow; and for every input the policy answers the
event with one of the two verdicts (no event is left unanswered). -/
theorem c7_fail_open (rawUrl : String) (resource_type : ResourceType) (block_images : Bool)
    (imageParse : Option (String × String)) (assetParse : Option String) :
    handle_image_request rawUrl none = .allow ∧
    handle_asset_request none = .allow ∧
    (handle_request resource_type block_images rawUrl imageParse assetParse = .allow ∨
     handle_request resource_type block_images rawUrl imageParse assetParse = .block) := by
  refine ⟨rfl, rfl, ?_⟩
  cases handle_request resource_type block_images rawUrl imageParse assetParse
  · exact Or.inl rfl
  · exact Or.inr rfl

lemma floorForScore_mono {s s' : ℚ} (h : s ≤ s') : floorForScore s ≤ floorForScore s' := by
  unfold floorForScore
  split_ifs <;> first | omega | linarith

lemma calculate_smart_delay_measured (d dd ew : ℕ) (s : ℚ) :
    calculate_smart_delay d dd true ew (.ok s) =
      .ok (min (max (floorForScore s) (max d dd) + ew) 30000) := by
  simp only [calculate_smart_delay, floorForScore]
  split_ifs <;> simp [Nat.max_comm, Nat.zero_max]

/-- C4: with smart_wait enabled and a measured complexity score, the
computed delay equals the spec formula
min(max(f(s), max(userDelay, minimumDelay)) + extraWaitTime, 30000);
it never exceeds 30000, is at least max(userDelay, minimumDelay)
whenever that bound is below the cap, and is monotone in the score. -/
theorem c4_smart_delay (d dd ew : ℕ) (s s' : ℚ)
    (hcap : max d dd ≤ 30000) (hss : s ≤ s') :
    ∃ v v',
      calculate_smart_delay d dd true ew (.ok s) = .ok v ∧
      calculate_smart_delay d dd true ew (.ok s') = .ok v' ∧
      v = specDelayFormula d dd ew s ∧
      v ≤ 30000 ∧ max d dd ≤ v ∧ v ≤ v' := by
  refine ⟨_, _, calculate_smart_delay_measured d dd ew s,
    calculate_smart_delay_measured d dd ew s', rfl, min_le_right _ _, ?_, ?_⟩
  · exact le_min (le_trans (le_max_right _ _) (Nat.le_add_right _ _)) hcap
  · exact min_le_min
      (Nat.add_le_add_right (max_le_max (floorForScore_mono hss) (le_refl _)) ew)
      (le_refl _)

/-- C4 witness at concrete inputs. -/
theorem c4_witness :
    ∃ v v',
      calculate_smart_delay 1000 2000 true 500 (.ok 40) = .ok v ∧
      calculate_smart_delay 1000 2000 true 500 (.ok 60) = .ok v' ∧
      v = specDelayFormula 1000 2000 500 40 ∧
      v ≤ 30000 ∧ max 1000 2000 ≤ v ∧ v ≤ v' :=
  c4_smart_delay 1000 2000 500 40 60 (by decide) (by decide)

/-- C3 counterexample: with a selector that never resolves, the capture
retry loop executes all 3 attempts (retrying the element-not-found
HTTPException exactly like a transient failure, because the
except-Exception clause catches it) instead of stopping at the first
attempt. -/
theorem c3_counterexample :
    take_screenshot_with_retry (some "#missing") missingSelectorEnv 0 max_attempts =
      (.error (.exn ("Element with selector \x27#missing\x27 not found")), 3) ∧
    (3 : ℕ) ≠ 1 := by
  exact ⟨rfl, by decide⟩

lemma tswr_all_notfound (sel : String) (env : ℕ → AttemptEnv) :
    ∀ fuel i, 0 < fuel → (∀ j, j < i + fuel → (env j).queryFound = .ok false) →
      take_screenshot_with_retry (some sel) env i fuel =
        (.error (.exn ("Element with selector \x27" ++ sel ++ "\x27 not found")), i + fuel) := by
  intro fuel
  induction fuel with
  | zero => intro i h; omega
  | succ f ih =>
    intro i _ hall
    have hq : (env i).queryFound = .ok false := hall i (by omega)
    unfold take_screenshot_with_retry shotAttempt
    rw [hq]
    by_cases hf : f = 0
    · subst hf
      simp
    · simp only [hf, if_false, ite_false]
      rw [ih (i + 1) (Nat.pos_of_ne_zero hf) (fun j hj => hall j (by omega))]
      have harith : i + 1 + f = i + (f + 1) := by omega
      rw [harith]

/-- C3 amended: a selector resolving to zero elements does make the
request fail with the element-not-found error, but the failure is not
exempt from the retry loop: the capture step re-queries up to 3 attempts
(with backoff) before the error is raised. -/
theorem c3_amended_retry (sel : String) (env : ℕ → AttemptEnv)
    (h : ∀ j, j < max_attempts → (env j).queryFound = .ok false) :
    take_screenshot_with_retry (some sel) env 0 max_attempts =
      (.error (.exn ("Element with selector \x27" ++ sel ++ "\x27 not found")), max_attempts) :=
  tswr_all_notfound sel env 3 0 (by decide) h

/-- C3 amended witness at concrete inputs. -/
theorem c3_witness :
    take_screenshot_with_retry (some "#absent") missingSelectorEnv 0 max_attempts =
      (.error (.exn ("Element with selector \x27#absent\x27 not found")), max_attempts) :=
  c3_amended_retry "#absent" missingSelectorEnv (fun _ _ => rfl)

lemma runAttempts_none_iff (env : ℕ → NavOutcome) (l : List (ℕ × Strategy)) :
    ∀ s, runAttempts env s l = none ↔ ∀ k, k < l.length → env (s + k) = .failure := by
  induction l with
  | nil => intro s; simp [runAttempts]
  | cons a rest ih =>
    intro s
    simp only [runAttempts, List.length_cons]
    cases h : env s with
    | success r =>
      constructor
      · intro hfalse; cases hfalse
      · intro hall
        have h0 := hall 0 (by omega)
        rw [Nat.add_zero] at h0
        rw [h0] at h
        cases h
    | failure =>
      rw [ih (s + 1)]
      constructor
      · intro hall k hk
        cases k with
        | zero => rw [Nat.add_zero]; exact h
        | succ k' =>
          have := hall k' (by omega)
          have harith : s + 1 + k' = s + (k' + 1) := by omega
          rw [harith] at this
          exact this
      · intro hall k hk
        have := hall (k + 1) (by omega)
        have harith : s + (k + 1) = s + 1 + k := by omega
        rw [harith] at this
        exact this

lemma runAttempts_first (env : ℕ → NavOutcome) (l : List (ℕ × Strategy)) :
    ∀ s i r, i < l.length → env (s + i) = .success r →
      (∀ j, j < i → env (s + j) = .failure) →
      runAttempts env s l = some (s + i, r) := by
  induction l with
  | nil => intro s i r hi; exact absurd hi (by simp)
  | cons a rest ih =>
    intro s i r hi hsucc hbefore
    simp only [runAttempts]
    cases i with
    | zero =>
      rw [Nat.add_zero] at hsucc
      rw [hsucc]
      simp
    | succ i' =>
      have h0 : env s = .failure := by
        have := hbefore 0 (by omega)
        rwa [Nat.add_zero] at this
      rw [h0]
      have harith : s + (i' + 1) = s + 1 + i' := by omega
      rw [harith] at hsucc ⊢
      exact ih (s + 1) i' r (by simp at hi; omega) hsucc
        (fun j hj => by
          have := hbefore (j + 1) (by omega)
          have harith2 : s + (j + 1) = s + 1 + j := by omega
          rwa [harith2] at this)

/-- C5: the navigation controller tries the strategies in the fixed
documented order within each round (the two more patient strategies
appearing only in aggressive mode), runs 2 rounds normally and 3 in
aggressive mode, returns at the first successful attempt, and reports
exhaustion exactly when every scheduled attempt and the final
minimal-requirement fallback have all failed. -/
theorem c5_navigation (aggressive_wait : Bool) (env : ℕ → NavOutcome) :
    ((navAttempts false).map fun p => p.2.wait_until) =
      [.domcontentloaded, .networkidle, .load, .commit,
       .domcontentloaded, .networkidle, .load, .commit] ∧
    ((navAttempts true).map fun p => p.2.wait_until) =
      [.domcontentloaded, .networkidle, .load, .commit, .networkidle, .domcontentloaded,
       .domcontentloaded, .networkidle, .load, .commit, .networkidle, .domcontentloaded,
       .domcontentloaded, .networkidle, .load, .commit, .networkidle, .domcontentloaded] ∧
    max_retries false = 2 ∧ max_retries true = 3 ∧
    (wait_strategies false).length = 4 ∧ (wait_strategies true).length = 6 ∧
    (navAttempts aggressive_wait).length =
      max_retries aggressive_wait * (wait_strategies aggressive_wait).length ∧
    (∀ i r, (∀ j, j < i → env j = .failure) → env i = .success r →
      i ≤ (navAttempts aggressive_wait).length →
      navigate_with_retries aggressive_wait env = .ok (i, r)) ∧
    (navigate_with_retries aggressive_wait env = .error () ↔
      ∀ j, j ≤ (navAttempts aggressive_wait).length → env j = .failure) := by
  refine ⟨rfl, rfl, rfl, rfl, rfl, rfl, by cases aggressive_wait <;> rfl, ?_, ?_⟩
  · intro i r hbefore hsucc hle
    rcases Nat.lt_or_ge i (navAttempts aggressive_wait).length with hlt | hge
    · have hrun := runAttempts_first env (navAttempts aggressive_wait) 0 i r hlt
        (by rwa [Nat.zero_add]) (fun j hj => by rw [Nat.zero_add]; exact hbefore j hj)
      rw [Nat.zero_add] at hrun
      unfold navigate_with_retries
      rw [hrun]
    · have heq : i = (navAttempts aggressive_wait).length := by omega
      subst heq
      have hrun : runAttempts env 0 (navAttempts aggressive_wait) = none :=
        (runAttempts_none_iff env _ 0).mpr
          (fun k hk => by rw [Nat.zero_add]; exact hbefore k hk)
      unfold navigate_with_retries
      rw [hrun, hsucc]
  · unfold navigate_with_retries
    constructor
    · intro herr j hj
      rcases hrun : runAttempts env 0 (navAttempts aggressive_wait) with _ | res
      · rcases Nat.lt_or_ge j (navAttempts aggressive_wait).length with hlt | hge
        · have := (runAttempts_none_iff env _ 0).mp hrun j hlt
          rwa [Nat.zero_add] at this
        · have hj' : j = (navAttempts aggressive_wait).length := by omega
          subst hj'
          rw [hrun] at herr
          cases hN : env (navAttempts aggressive_wait).length
          · rw [hN] at herr; cases herr
          · rfl
      · rw [hrun] at herr; cases herr
    · intro hall
      have hrun : runAttempts env 0 (navAttempts aggressive_wait) = none :=
        (runAttempts_none_iff env _ 0).mpr
          (fun k hk => by rw [Nat.zero_add]; exact hall k (by omega))
      rw [hrun, hall (navAttempts aggressive_wait).length (by omega)]

/-- C5 witness at concrete inputs: the first two attempts fail, the third
(round 1, strategy index 3) succeeds immediately. -/
theorem c5_witness :
    navigate_with_retries false demoNavEnv = .ok (2, some 200) :=
  (c5_navigation false demoNavEnv).2.2.2.2.2.2.2.1 2 (some 200)
    (by intro j hj; interval_cases j <;> rfl) rfl (by decide)

lemma fcc_ok (sw yt : Bool) (i l s : Except Exn Unit)
    (hi : i ≠ .error Exn.cancel) (hl : l ≠ .error Exn.cancel) (hs : s ≠ .error Exn.cancel) :
    final_content_check sw yt i l s = .ok () := by
  cases sw with
  | false => rfl
  | true =>
    cases i with
    | error ex =>
      cases ex with
      | exn m => rfl
      | cancel => exact absurd rfl hi
    | ok u =>
      cases u
      cases l with
      | error ex =>
        cases ex with
        | exn m => rfl
        | cancel => exact absurd rfl hl
      | ok u =>
        cases u
        cases yt with
        | false => rfl
        | true =>
          cases s with
          | error ex =>
            cases ex with
            | exn m => rfl
            | cancel => exact absurd rfl hs
          | ok u => cases u; rfl

lemma capture_closes (request : ScreenshotRequest) (dd : ℕ) (env : Env) :
    (capture_screenshot request dd env).closes =
      (if (captureTry request dd env).pageCreated then [CloseEv.page] else []) ++
      (if (captureTry request dd env).ctxCreated then [CloseEv.context] else []) := by
  simp only [capture_screenshot]
  cases (captureTry request dd env).out <;> rfl

lemma captureTry_created (request : ScreenshotRequest) (dd : ℕ) (env : Env) :
    (captureTry request dd env).pageCreated = true →
      (captureTry request dd env).ctxCreated = true := by
  unfold captureTry
  cases env.createContext with
  | error ex => cases ex <;> intro h <;> first | rfl | exact h
  | ok u =>
    cases u
    cases env.newPage with
    | error ex => cases ex <;> intro h <;> rfl
    | ok u =>
      cases u
      dsimp only
      intro _
      repeat' split
      all_goals rfl

/-- C1: once both the context and the page of a session are created,
the finally clause of capture_screenshot closes both on every exit path
(the environment ranges over success, every raised exception, and
cancellation), the page strictly before the context, and neither handle
is ever closed more than once; moreover a page is only ever created
after its context. -/
theorem c1_handles_closed (request : ScreenshotRequest) (dd : ℕ) (env : Env) :
    ((capture_screenshot request dd env).closes.count CloseEv.page ≤ 1 ∧
     (capture_screenshot request dd env).closes.count CloseEv.context ≤ 1) ∧
    ((captureTry request dd env).pageCreated = true →
      (captureTry request dd env).ctxCreated = true) ∧
    ((captureTry request dd env).ctxCreated = true →
     (captureTry request dd env).pageCreated = true →
      (capture_screenshot request dd env).closes = [CloseEv.page, CloseEv.context]) := by
  refine ⟨?_, captureTry_created request dd env, ?_⟩
  · rw [capture_closes]
    cases (captureTry request dd env).pageCreated <;>
      cases (captureTry request dd env).ctxCreated <;> decide
  · intro hc hp
    rw [capture_closes, hc, hp]
    rfl

/-- C1 witness: a run whose screenshot step raises on every attempt
still closes page then context exactly once. -/
theorem c1_witness :
    (capture_screenshot reqEx 2000 shotFailEnv).closes = [CloseEv.page, CloseEv.context] :=
  (c1_handles_closed reqEx 2000 shotFailEnv).2.2 (by decide) (by decide)

lemma loadFailDetail_ne_empty (o : Option ℕ) : loadFailDetail o ≠ "" := by
  intro h
  have hlen := congrArg String.length h
  unfold loadFailDetail at hlen
  rw [String.length_append] at hlen
  have h20 : ("Failed to load URL: " : String).length = 20 := rfl
  have h0 : ("" : String).length = 0 := rfl
  rw [h20, h0] at hlen
  omega

lemma captureTry_navFail (request : ScreenshotRequest) (dd : ℕ) (env : Env) (response : Option ℕ)
    (h1 : env.createContext = .ok ()) (h2 : env.newPage = .ok ()) (h3 : env.setupPage = .ok ())
    (hnav : env.nav = .ok response)
    (hbad : (response.isNone || decide (400 ≤ response.getD 0)) = true) :
    captureTry request dd env = ⟨.caught (loadFailDetail response), true, true⟩ := by
  unfold captureTry
  rw [h1, h2, h3, hnav]
  dsimp only
  rw [if_pos hbad]

/-- C8: a navigation that mechanically completes but yields no response
object, or a response with status at least 400, fails the request: the
returned response has success false and the non-empty load-failure error
message, and no later step (delay, readiness, screenshot, decode) is
ever consulted — any environment agreeing on the first four step
outcomes produces the identical run. -/
theorem c8_status_gate (request : ScreenshotRequest) (dd : ℕ) (env env' : Env)
    (h1 : env.createContext = .ok ()) (h2 : env.newPage = .ok ()) (h3 : env.setupPage = .ok ())
    (hnav : env.nav = .ok none ∨ ∃ status, env.nav = .ok (some status) ∧ 400 ≤ status)
    (h1' : env'.createContext = .ok ()) (h2' : env'.newPage = .ok ())
    (h3' : env'.setupPage = .ok ()) (hnav' : env'.nav = env.nav) :
    ∃ e, (capture_screenshot request dd env).resp =
        some { success := false, url := request.url, size := (0, 0),
               format := request.format, data := none, error := some e } ∧
      e ≠ "" ∧
      capture_screenshot request dd env' = capture_screenshot request dd env := by
  have hresp : ∃ response, env.nav = .ok response ∧
      (response.isNone || decide (400 ≤ response.getD 0)) = true := by
    rcases hnav with hn | ⟨st, hn, hst⟩
    · exact ⟨none, hn, rfl⟩
    · exact ⟨some st, hn, by simp [hst]⟩
  obtain ⟨response, hn, hbad⟩ := hresp
  have hct := captureTry_navFail request dd env response h1 h2 h3 hn hbad
  have hct' := captureTry_navFail request dd env' response h1' h2' h3' (hnav' ▸ hn) hbad
  refine ⟨loadFailDetail response, ?_, loadFailDetail_ne_empty response, ?_⟩
  · unfold capture_screenshot
    rw [hct]
  · unfold capture_screenshot
    rw [hct, hct']

/-- C8 witness: a 404 response fails the request, and an environment
whose later steps all differ (or would cancel) yields the identical run. -/
theorem c8_witness :
    ∃ e, (capture_screenshot reqEx 2000 navFailEnvA).resp =
        some { success := false, url := reqEx.url, size := (0, 0),
               format := reqEx.format, data := none, error := some e } ∧
      e ≠ "" ∧
      capture_screenshot reqEx 2000 navFailEnvB = capture_screenshot reqEx 2000 navFailEnvA :=
  c8_status_gate reqEx 2000 navFailEnvA navFailEnvB rfl rfl rfl
    (Or.inr ⟨404, rfl, by decide⟩) rfl rfl rfl rfl

lemma captureTry_checks_congr (request : ScreenshotRequest) (dd : ℕ) (env : Env)
    (i' l' s' : Except Exn Unit)
    (hfin : final_content_check request.smart_wait (isYoutube request.url) i' l' s' =
      final_content_check request.smart_wait (isYoutube request.url)
        env.imagesCheck env.lazyCheck env.siteCheck) :
    captureTry request dd { env with imagesCheck := i', lazyCheck := l', siteCheck := s' } =
      captureTry request dd env := by
  obtain ⟨cc, np, sp, nv, es, wd, ic, lc, sc, sh, de⟩ := env
  unfold captureTry
  dsimp only at hfin ⊢
  rw [hfin]

/-- C9: every readiness-confirmation step is best-effort — the
post-delay content checks (image fraction, lazy-loading, site-specific
media), the in-navigation content-readiness probe, and the network-idle
probe all swallow raised exceptions and timeouts; and replacing the
outcomes of the three content checks (by any non-cancelled outcomes)
never changes the result of capture_screenshot. -/
theorem c9_readiness_best_effort (sw yt : Bool) (i l s w p : Except Exn Unit)
    (wni : Bool) (su : WaitUntil)
    (request : ScreenshotRequest) (dd : ℕ) (env : Env) (i' l' s' : Except Exn Unit)
    (hi : i ≠ .error Exn.cancel) (hl : l ≠ .error Exn.cancel) (hs : s ≠ .error Exn.cancel)
    (hw : w ≠ .error Exn.cancel) (hp : p ≠ .error Exn.cancel)
    (hei : env.imagesCheck ≠ .error Exn.cancel) (hel : env.lazyCheck ≠ .error Exn.cancel)
    (hes : env.siteCheck ≠ .error Exn.cancel)
    (hi' : i' ≠ .error Exn.cancel) (hl' : l' ≠ .error Exn.cancel) (hs' : s' ≠ .error Exn.cancel) :
    final_content_check sw yt i l s = .ok () ∧
    wait_for_content_readiness w = .ok () ∧
    network_idle_probe wni su p = .ok () ∧
    capture_screenshot request dd
        { env with imagesCheck := i', lazyCheck := l', siteCheck := s' } =
      capture_screenshot request dd env := by
  refine ⟨fcc_ok sw yt i l s hi hl hs, ?_, ?_, ?_⟩
  · cases w with
    | error ex =>
      cases ex with
      | exn m => rfl
      | cancel => exact absurd rfl hw
    | ok u => cases u; rfl
  · unfold network_idle_probe
    split
    · cases p with
      | error ex =>
        cases ex with
        | exn m => rfl
        | cancel => exact absurd rfl hp
      | ok u => cases u; rfl
    · rfl
  · have hfin : final_content_check request.smart_wait (isYoutube request.url) i' l' s' =
        final_content_check request.smart_wait (isYoutube request.url)
          env.imagesCheck env.lazyCheck env.siteCheck :=
      (fcc_ok _ _ _ _ _ hi' hl' hs').trans (fcc_ok _ _ _ _ _ hei hel hes).symm
    have hct := captureTry_checks_congr request dd env i' l' s' hfin
    unfold capture_screenshot
    rw [hct]

/-- C9 witness at concrete inputs: timing-out checks leave the run
unchanged. -/
theorem c9_witness :
    final_content_check true false (.error (.exn "Timeout 8000ms")) (.ok ()) (.ok ()) = .ok () ∧
    wait_for_content_readiness (.error (.exn "Timeout")) = .ok () ∧
    network_idle_probe true WaitUntil.load (.error (.exn "Timeout 5000ms")) = .ok () ∧
    capture_screenshot reqEx 2000
        { happyEnv with imagesCheck := .error (.exn "Timeout 8000ms"),
                        lazyCheck := .error (.exn "Timeout 5000ms"),
                        siteCheck := .error (.exn "Timeout 6000ms") } =
      capture_screenshot reqEx 2000 happyEnv :=
  c9_readiness_best_effort true false (.error (.exn "Timeout 8000ms")) (.ok ()) (.ok ())
    (.error (.exn "Timeout")) (.error (.exn "Timeout 5000ms")) true WaitUntil.load
    reqEx 2000 happyEnv (.error (.exn "Timeout 8000ms")) (.error (.exn "Timeout 5000ms"))
    (.error (.exn "Timeout 6000ms"))
    (fun h => nomatch h) (fun h => nomatch h) (fun h => nomatch h) (fun h => nomatch h)
    (fun h => nomatch h) (fun h => nomatch h) (fun h => nomatch h) (fun h => nomatch h)
    (fun h => nomatch h) (fun h => nomatch h) (fun h => nomatch h)

lemma calc_ok (d dd : ℕ) (sw : Bool) (ew : ℕ) (es : Except Exn ℚ) (h : noCancelE es) :
    ∃ v, calculate_smart_delay d dd sw ew es = .ok v := by
  unfold calculate_smart_delay
  cases sw with
  | false =>
    cases es with
    | error ex => exact ⟨_, rfl⟩
    | ok sc => exact ⟨_, rfl⟩
  | true =>
    cases es with
    | error ex =>
      cases ex with
      | exn m => exact ⟨_, rfl⟩
      | cancel => exact absurd rfl h
    | ok sc => exact ⟨_, rfl⟩

lemma waitStep_noCancel (d : ℕ) (eff : Except Exn Unit) (h : noCancelE eff) :
    waitStep d eff ≠ .error Exn.cancel := by
  unfold waitStep
  split
  · exact h
  · intro hcon; cases hcon

lemma shotAttempt_noCancel (selector : Option String) (a : AttemptEnv)
    (hq : noCancelE a.queryFound) (hs : noCancelE a.shot) :
    shotAttempt selector a ≠ .error Exn.cancel := by
  obtain ⟨q, st⟩ := a
  simp only [noCancelE] at hq hs
  cases selector with
  | none => exact hs
  | some sel =>
    cases q with
    | error ex =>
      cases ex with
      | exn m => simp [shotAttempt]
      | cancel => exact absurd rfl hq
    | ok b =>
      cases b with
      | false => simp [shotAttempt]
      | true => exact hs

lemma tswr_noCancel (selector : Option String) (env : ℕ → AttemptEnv) :
    ∀ fuel i, (∀ j, j < i + fuel → noCancelE (env j).queryFound ∧ noCancelE (env j).shot) →
      (take_screenshot_with_retry selector env i fuel).1 ≠ .error Exn.cancel := by
  intro fuel
  induction fuel with
  | zero => intro i h; intro hcon; cases hcon
  | succ f ih =>
    intro i h
    have ha := h i (by omega)
    unfold take_screenshot_with_retry
    cases hsa : shotAttempt selector (env i) with
    | ok b => intro hcon; cases hcon
    | error ex =>
      cases ex with
      | cancel => exact absurd hsa (shotAttempt_noCancel selector (env i) ha.1 ha.2)
      | exn e =>
        by_cases hf : f = 0
        · subst hf
          intro hcon; cases hcon
        · simp only [hf, if_false, ite_false]
          exact ih (i + 1) (fun j hj => h j (by omega))

set_option maxRecDepth 4000 in
lemma captureTry_not_cancelled (request : ScreenshotRequest) (dd : ℕ) (env : Env)
    (h : env.noCancel) : (captureTry request dd env).out ≠ .cancelled := by
  obtain ⟨h1, h2, h3, h4, h5, h6, h7, h8, h9, h10, h11⟩ := h
  obtain ⟨v, hv⟩ :=
    calc_ok request.delay dd request.smart_wait request.extra_wait_time env.evalScore h5
  have hfcc := fcc_ok request.smart_wait (isYoutube request.url)
    env.imagesCheck env.lazyCheck env.siteCheck h7 h8 h9
  have hws : ∀ d, waitStep d env.waitDelay ≠ .error Exn.cancel :=
    fun d => waitStep_noCancel d env.waitDelay h6
  have hshot : (take_screenshot_with_retry request.selector env.shots 0 max_attempts).1 ≠
      .error Exn.cancel :=
    tswr_noCancel request.selector env.shots max_attempts 0
      (fun j hj => h10 j (by simpa using hj))
  unfold captureTry
  repeat' split
  all_goals simp_all [noCancelE]

set_option maxRecDepth 4000 in
lemma captureTry_success_flag (request : ScreenshotRequest) (dd : ℕ) (env : Env)
    (r : ScreenshotResponse) :
    (captureTry request dd env).out = .success r → r.success = true := by
  unfold captureTry
  repeat' split
  all_goals intro hx
  all_goals simp_all
  all_goals rw [← hx]

/-- C10: capture_screenshot is total over raised exceptions — in every
run without task cancellation it returns a ScreenshotResponse, and when
the try block ended with a caught exception of message e the response
is exactly success false, size 0x0, data absent, error e. -/
theorem c10_exception_totality (request : ScreenshotRequest) (dd : ℕ) (env : Env)
    (h : env.noCancel) :
    ∃ resp, (capture_screenshot request dd env).resp = some resp ∧
      (∀ e, (captureTry request dd env).out = .caught e →
        resp = { success := false, url := request.url, size := (0, 0),
                 format := request.format, data := none, error := some e }) ∧
      (resp.success = false → resp.size = (0, 0) ∧ resp.data = none ∧ resp.error ≠ none) := by
  have hnc := captureTry_not_cancelled request dd env h
  cases hout : (captureTry request dd env).out with
  | cancelled => exact absurd hout hnc
  | success r =>
    refine ⟨r, ?_, ?_, ?_⟩
    · simp [capture_screenshot, hout]
    · intro e he
      cases he
    · intro hfalse
      have hflag := captureTry_success_flag request dd env r hout
      rw [hflag] at hfalse
      cases hfalse
  | caught e =>
    refine ⟨{ success := false, url := request.url, size := (0, 0),
              format := request.format, data := none, error := some e }, ?_, ?_, ?_⟩
    · simp [capture_screenshot, hout]
    · intro e' he'
      injection he' with hinj
      rw [hinj]
    · intro _
      exact ⟨rfl, rfl, by simp⟩

/-- C10 witness: a run whose screenshot step raises becomes exactly the
failure response carrying the exception message. -/
theorem c10_witness :
    ∃ resp, (capture_screenshot reqEx 2000 shotFailEnv).resp = some resp ∧
      (∀ e, (captureTry reqEx 2000 shotFailEnv).out = .caught e →
        resp = { success := false, url := reqEx.url, size := (0, 0),
                 format := reqEx.format, data := none, error := some e }) ∧
      (resp.success = false → resp.size = (0, 0) ∧ resp.data = none ∧ resp.error ≠ none) :=
  c10_exception_totality reqEx 2000 shotFailEnv
    (by unfold Env.noCancel noCancelE; decide)

lemma dropWhile_flush_filter (p now : ℤ) :
    ∀ (l : List ℤ), l.Pairwise (· ≤ ·) →
      l.dropWhile (fun t => decide (p < now - t)) =
        l.filter (fun t => decide (now - p ≤ t)) := by
  intro l
  induction l with
  | nil => intro _; rfl
  | cons a l ih =>
    intro hp
    rw [List.pairwise_cons] at hp
    rw [List.dropWhile_cons, List.filter_cons]
    by_cases ha : p < now - a
    · have ha2 : ¬ (now - p ≤ a) := by linarith
      rw [if_pos (by simpa using ha), if_neg (by simpa using ha2)]
      exact ih hp.2
    · have ha2 : now - p ≤ a := by linarith
      rw [if_neg (by simpa using ha), if_pos (by simpa using ha2)]
      congr 1
      rw [eq_comm, List.filter_eq_self]
      intro b hb
      simpa using le_trans ha2 (hp.1 b hb)

lemma throttle_window_inv (rl : ℕ) (p : ℤ) (hp : 0 ≤ p) :
    ∀ (ts : List ℤ) (t0 : ℤ) (adm : List ℤ),
      (t0 :: ts).Pairwise (· ≤ ·) →
      adm.Pairwise (· ≤ ·) →
      (∀ a ∈ adm, a ≤ t0) →
      (∀ u : ℤ, (adm.filter (windowB p u)).length ≤ rl) →
      ∀ u : ℤ,
        ((adm ++ (throttleRun rl p (adm.filter (windowB p t0)) ts).2).filter
          (windowB p u)).length ≤ rl := by
  intro ts
  induction ts with
  | nil =>
    intro t0 adm _ _ _ hbound u
    simpa [throttleRun] using hbound u
  | cons t ts ih =>
    intro t0 adm hts hadm hle hbound u
    have ht0t : t0 ≤ t := (List.pairwise_cons.mp hts).1 t (by simp)
    have hts' : (t :: ts).Pairwise (· ≤ ·) := (List.pairwise_cons.mp hts).2
    have hflush : flush p t (adm.filter (windowB p t0)) = adm.filter (windowB p t) := by
      unfold flush
      rw [dropWhile_flush_filter p t (adm.filter (windowB p t0)) (hadm.filter _),
        List.filter_filter]
      apply List.filter_congr
      intro a ha
      have h1 : a ≤ t0 := hle a ha
      by_cases h2 : t - p ≤ a
      · have h3 : t0 - p ≤ a := by linarith
        have h4 : a ≤ t := by linarith
        simp [windowB, h1, h2, h3, h4]
      · simp [windowB, h2]
    have hlet : ∀ a ∈ adm, a ≤ t := fun a ha => le_trans (hle a ha) ht0t
    simp only [throttleRun, throttleStep]
    rw [hflush]
    by_cases hlen : (adm.filter (windowB p t)).length < rl
    · rw [if_pos hlen]
      dsimp only
      rw [if_pos rfl]
      have hwt : windowB p t t = true := by
        simp only [windowB, Bool.and_eq_true, decide_eq_true_eq]
        constructor <;> linarith
      have happ : adm.filter (windowB p t) ++ [t] = (adm ++ [t]).filter (windowB p t) := by
        rw [List.filter_append]
        simp [hwt]
      have hpair : (adm ++ [t]).Pairwise (· ≤ ·) := by
        refine List.pairwise_append.mpr ⟨hadm, List.pairwise_singleton _ _, ?_⟩
        intro a ha b hb
        rw [List.mem_singleton] at hb
        subst hb
        exact hlet a ha
      have hle' : ∀ a ∈ adm ++ [t], a ≤ t := by
        intro a ha
        rcases List.mem_append.mp ha with h | h
        · exact hlet a h
        · rw [List.mem_singleton] at h
          subst h
          exact le_refl a
      have hbound' : ∀ v : ℤ, ((adm ++ [t]).filter (windowB p v)).length ≤ rl := by
        intro v
        rw [List.filter_append, List.length_append]
        by_cases hwv : windowB p v t = true
        · have hsub : ∀ a ∈ adm, windowB p v a = true → windowB p t a = true := by
            intro a ha hw
            simp only [windowB, Bool.and_eq_true, decide_eq_true_eq] at hw hwv ⊢
            have h1 : a ≤ t0 := hle a ha
            constructor <;> linarith [hw.1, hw.2, hwv.1, hwv.2]
          have heq2 : adm.filter (windowB p v) =
              (adm.filter (windowB p t)).filter (windowB p v) := by
            rw [List.filter_filter]
            apply List.filter_congr
            intro a ha
            by_cases hw : windowB p v a = true
            · simp [hw, hsub a ha hw]
            · simp [hw]
          have hlen2 : (adm.filter (windowB p v)).length ≤
              (adm.filter (windowB p t)).length := by
            rw [heq2]
            exact List.length_filter_le _ _
          have hone : ([t].filter (windowB p v)).length = 1 := by
            simp [hwv]
          omega
        · have hzero : ([t].filter (windowB p v)).length = 0 := by
            simp [hwv]
          have := hbound v
          omega
      have hih := ih t (adm ++ [t]) hts' hpair hle' hbound' u
      rw [← happ] at hih
      rw [List.append_assoc] at hih
      simpa using hih
    · rw [if_neg hlen]
      dsimp only
      rw [if_neg Bool.false_ne_true]
      exact ih t adm hts' hadm hlet (fun v => hbound v) u

/-- C2 counterexample: ten requests submitted simultaneously at instant 0
are all admitted by the throttler (the only admission control in the
code is the rate limiter, 10 permits per 1-second period), and while
none of them has yet released its resources, 10 capture sessions are
open — exceeding max_concurrent_browsers = 5, which no code consumes. -/
theorem c2_counterexample :
    admittedTimes rate_limit_requests rate_limit_period tenRequestsAtZero = tenRequestsAtZero ∧
    openSessionsAt tenRequestsAtZero (List.replicate 10 none) 0 = 10 ∧
    max_concurrent_browsers < openSessionsAt tenRequestsAtZero (List.replicate 10 none) 0 := by
  refine ⟨by decide, by decide, by decide⟩

/-- C2 amended: the scheduler does not bound the number of concurrently
open capture sessions; what it does guarantee is the token-bucket rate
bound — over any nondecreasing sequence of request instants, the
throttler admits at most rate_limit requests within any window one
period long. -/
theorem c2_rate_bound (rl : ℕ) (p : ℤ) (hp : 0 ≤ p) (ts : List ℤ)
    (hts : ts.Pairwise (· ≤ ·)) (u : ℤ) :
    ((admittedTimes rl p ts).filter (windowB p u)).length ≤ rl := by
  cases ts with
  | nil => simp [admittedTimes, throttleRun]
  | cons t ts =>
    have h0 : (t :: t :: ts).Pairwise (· ≤ ·) := by
      rw [List.pairwise_cons]
      refine ⟨fun b hb => ?_, hts⟩
      rcases List.mem_cons.mp hb with h | h
      · exact le_of_eq h.symm
      · exact (List.pairwise_cons.mp hts).1 b h
    have hinv := throttle_window_inv rl p hp (t :: ts) t [] h0 (by simp) (by simp) (by simp) u
    simpa [admittedTimes] using hinv

/-- C2 amended witness at the configured constants and the concrete
simultaneous-burst schedule. -/
theorem c2_witness :
    ((admittedTimes rate_limit_requests rate_limit_period tenRequestsAtZero).filter
      (windowB rate_limit_period 0)).length ≤ rate_limit_requests :=
  c2_rate_bound rate_limit_requests rate_limit_period (by decide)
    tenRequestsAtZero (by decide) 0

end Webss
